import Mathlib

/-!
Shallow embedding of the PDF-reader backend (src/app.py) and proofs about it.

The embedding models, from the source:
  - extract_pdf_text (app.py 85-145): the per-page fallback chain
    (direct page text, then words, then table cells) and the newline join,
    over page data delivered by the pdfplumber library;
  - extract_images_from_pdf (app.py 33-83): the per-image loop with its
    try/except skip, deterministic filenames, and page attribution;
  - get_answer_from_model (app.py 147-231): context assembly with image
    descriptions, the user message, and the final chat-completion call;
  - upload_file (app.py 233-278) and ask_question (app.py 280-323): the
    route handlers and the in-process document store.

Library results (pdfplumber page contents, PyMuPDF image decoding, remote
chat-completion outcomes) are inputs of the embedding: a page carries the
text, word list and tables the library would report, and each remote call
carries its outcome as data.
-/

/-- Python str.strip on a string: drop whitespace characters from both
ends (used at app.py 135, final_text.strip()). -/
def pyStrip (s : String) : String :=
  String.mk (((s.data.dropWhile Char.isWhitespace).reverse.dropWhile Char.isWhitespace).reverse)

/-- One page as reported by pdfplumber: the direct text from extract_text
(empty string standing for a falsy result), the word texts from
extract_words, and the tables from extract_tables (a cell is None or a
string). The err case models a page whose extraction raised, caught by the
per-page try/except (app.py 128-130). -/
inductive PageData where
  | ok (text : String) (words : List String) (tables : List (List (List (Option String))))
  | err
deriving DecidableEq

/-- A truthy table cell (app.py 122: cells that are None or empty are
skipped by the if cell filter). -/
def truthyCell : Option String → Option String
  | none => none
  | some s => if s = "" then none else some s

/-- One table row rendered as its truthy cells joined by single spaces
(app.py 122). -/
def rowText (row : List (Option String)) : String :=
  String.intercalate " " (row.filterMap truthyCell)

/-- The table_text list: every row of every table, in order, rendered by
rowText (app.py 120-122, table_text.extend over each table). -/
def tableTexts : List (List (List (Option String))) → List String
  | [] => []
  | tb :: rest => tb.map rowText ++ tableTexts rest

/-- What one page contributes to the text list (app.py 97-130): the direct
text if truthy, else the words joined by spaces if the word list is
non-empty, else the newline join of table_text if the table list and
table_text are non-empty, else nothing. An err page contributes nothing. -/
def pageContribution : PageData → Option String
  | PageData.err => none
  | PageData.ok t ws tbls =>
    if t ≠ "" then some t
    else if ws ≠ [] then some (String.intercalate " " ws)
    else if tbls ≠ [] then
      if tableTexts tbls ≠ [] then some (String.intercalate "\n" (tableTexts tbls)) else none
    else none

/-- The text list accumulated by the page loop (app.py 96-130). -/
def collectPageTexts : List PageData → List String
  | [] => []
  | p :: rest =>
    match pageContribution p with
    | some t => t :: collectPageTexts rest
    | none => collectPageTexts rest

/-- extract_pdf_text (app.py 85-145): join the page contributions with
newlines; if the joined text is whitespace-only, return None (no text),
else return the joined text unchanged. -/
def extract_pdf_text (pages : List PageData) : Option String :=
  let final_text := String.intercalate "\n" (collectPageTexts pages)
  if pyStrip final_text = "" then none else some final_text

/-- The per-page contribution as the specification words it: apply the
first strategy whose OUTPUT is non-empty (direct text, the space-joined
words, the newline-joined table rows). -/
def specPageContribution : PageData → Option String
  | PageData.err => none
  | PageData.ok t ws tbls =>
    if t ≠ "" then some t
    else if String.intercalate " " ws ≠ "" then some (String.intercalate " " ws)
    else if String.intercalate "\n" (tableTexts tbls) ≠ "" then
      some (String.intercalate "\n" (tableTexts tbls))
    else none

/-- The extractor as the specification words it: spec-shaped contributions
joined by newlines, empty trimmed join signalling no text. -/
def specExtract (pages : List PageData) : Option String :=
  let final_text := String.intercalate "\n" (pages.filterMap specPageContribution)
  if pyStrip final_text = "" then none else some final_text

/-- A page on which the data-driven fallback of the code coincides with the
output-driven fallback of the spec: a non-empty word list joins to a
non-empty string, and a non-empty table_text joins to a non-empty string. -/
def goodPage : PageData → Prop
  | PageData.err => True
  | PageData.ok _ ws tbls =>
    (ws = [] ∨ String.intercalate " " ws ≠ "") ∧
    (tableTexts tbls = [] ∨ String.intercalate "\n" (tableTexts tbls) ≠ "")

instance goodPageDecidable : (p : PageData) → Decidable (goodPage p)
  | PageData.err => isTrue trivial
  | PageData.ok _ ws tbls =>
    inferInstanceAs (Decidable ((ws = [] ∨ String.intercalate " " ws ≠ "") ∧
      (tableTexts tbls = [] ∨ String.intercalate "\n" (tableTexts tbls) ≠ "")))

/-- One embedded raster image as delivered by PyMuPDF: either its decoded
content (abstracted to the base64 payload the code derives from it), or a
decode failure caught by the per-image try/except (app.py 49-77). -/
inductive RawImage where
  | ok (b64 : String)
  | err
deriving DecidableEq

/-- One entry of the images list built by extract_images_from_pdf
(app.py 68-72): deterministic filename from 1-based page and image index,
the 1-based page number, and the base64 payload. -/
structure ExtractedImage where
  filename : String
  page : Nat
  base64 : String
deriving DecidableEq

/-- The inner loop of extract_images_from_pdf over one page (app.py
48-77): pn is the 0-based page number, i the 0-based image index; a
failing image is skipped (continue) and the loop moves to the next index. -/
def processPageImages (pn : Nat) : Nat → List RawImage → List ExtractedImage
  | _, [] => []
  | i, RawImage.ok b :: rest =>
    { filename := "page_" ++ toString (pn + 1) ++ "_image_" ++ toString (i + 1) ++ ".png",
      page := pn + 1, base64 := b } :: processPageImages pn (i + 1) rest
  | i, RawImage.err :: rest => processPageImages pn (i + 1) rest

/-- The outer page loop of extract_images_from_pdf (app.py 41-78). -/
def extractImagesAux : Nat → List (List RawImage) → List ExtractedImage
  | _, [] => []
  | pn, pg :: rest => processPageImages pn 0 pg ++ extractImagesAux (pn + 1) rest

/-- extract_images_from_pdf (app.py 33-83) on an opened document, given
per-page raw image lists. -/
def extract_images_from_pdf (pimgs : List (List RawImage)) : List ExtractedImage :=
  extractImagesAux 0 pimgs

/-- Outcome of the one describe-this-image chat-completion request made for
an image (app.py 184-195): a first-choice description string, a response
without choices, or an exception caught by the per-image try/except. -/
inductive DescribeOutcome where
  | ok (desc : String)
  | noChoices
  | raise
deriving DecidableEq

/-- Whether the describe call produced a usable description. -/
def descOk : DescribeOutcome → Bool
  | DescribeOutcome.ok _ => true
  | _ => false

/-- What the describe outcome appends to the context (app.py 190-192): the
description followed by a newline on success, nothing otherwise (both the
no-choices case and the caught exception append nothing). -/
def descText : DescribeOutcome → String
  | DescribeOutcome.ok d => d ++ "\n"
  | _ => ""

/-- The header appended before the image blocks (app.py 157). -/
def docHeader : String := "\n\nThe document also contains the following images:\n"

/-- The image loop of get_answer_from_model (app.py 158-195) as the
accumulating += of the source: for each image, append the index-and-page
label, then the describe outcome text; idx is the 1-based enumerate index
and the describe outcome for index idx is oracle idx. -/
def buildContextLoop (oracle : Nat → DescribeOutcome) : Nat → List ExtractedImage → String → String
  | _, [], acc => acc
  | idx, img :: rest, acc =>
    buildContextLoop oracle (idx + 1) rest
      ((acc ++ ("\nImage " ++ toString idx ++ " (on page " ++ toString img.page ++ "):\n")) ++
        descText (oracle idx))

/-- full_context as assembled by get_answer_from_model (app.py 154-196):
the given context, and if the image list is non-empty, the header followed
by the image loop output. -/
def full_context (c : String) (imgs : List ExtractedImage) (oracle : Nat → DescribeOutcome) : String :=
  if imgs.isEmpty then c else buildContextLoop oracle 1 imgs (c ++ docHeader)

/-- One labeled image block: the index-and-page label followed by the
describe outcome text. -/
def imageBlock (idx : Nat) (page : Nat) (o : DescribeOutcome) : String :=
  ("\nImage " ++ toString idx ++ " (on page " ++ toString page ++ "):\n") ++ descText o

/-- The image blocks from index idx on, written as a plain concatenation of
per-image blocks (the spec-shaped counterpart of buildContextLoop). -/
def blocksFrom (oracle : Nat → DescribeOutcome) : Nat → List ExtractedImage → String
  | _, [] => ""
  | idx, img :: rest => imageBlock idx img.page (oracle idx) ++ blocksFrom oracle (idx + 1) rest

/-- The context as claim C6 words it: with images, the base text, the
header, and one labeled block per SUCCESSFULLY described image only. -/
def specBlocksC6 (oracle : Nat → DescribeOutcome) : Nat → List ExtractedImage → String
  | _, [] => ""
  | idx, img :: rest =>
    (match oracle idx with
     | DescribeOutcome.ok d =>
       ("\nImage " ++ toString idx ++ " (on page " ++ toString img.page ++ "):\n") ++ (d ++ "\n")
     | _ => "") ++ specBlocksC6 oracle (idx + 1) rest

/-- Context assembly as claim C6 words it. -/
def specContextC6 (c : String) (imgs : List ExtractedImage) (oracle : Nat → DescribeOutcome) : String :=
  if imgs.isEmpty then c else (c ++ docHeader) ++ specBlocksC6 oracle 1 imgs

/-- Context assembly as the code actually behaves, stated in spec shape:
one labeled block per image in order, description text only on success. -/
def amendedContextC6 (c : String) (imgs : List ExtractedImage) (oracle : Nat → DescribeOutcome) : String :=
  if imgs.isEmpty then c else (c ++ docHeader) ++ blocksFrom oracle 1 imgs

/-- The user message sent for answering (app.py 204-207): the context
formatted into the fixed template, with the question, by plain string
concatenation. -/
def user_message (context question : String) (imgs : List ExtractedImage)
    (oracle : Nat → DescribeOutcome) : String :=
  "Context: " ++ full_context context imgs oracle ++ "\n\nQuestion: " ++ question ++
    "\n\nAnswer the question based only on the provided context."

/-- Outcome of the final chat-completion call (app.py 212-217): a choices
list whose entries carry the (possibly null) message content, or an
exception caught at app.py 229-231. -/
inductive AnswerCallOutcome where
  | ok (choices : List (Option String))
  | raise
deriving DecidableEq

/-- Result of get_answer_from_model: the returned answer (None both when
the call raised and when it returned no choices, app.py 221-231), the user
message that was sent, and the number of remote requests issued (one
describe request per image plus the final answer request). -/
structure AnswerAttempt where
  answer : Option String
  sentUserMessage : String
  remoteCalls : Nat

/-- get_answer_from_model (app.py 147-231), with every remote outcome
supplied as data: the per-image describe outcomes through oracle and the
final call outcome through finalCall. -/
def get_answer_from_model (question context : String) (imgs : List ExtractedImage)
    (oracle : Nat → DescribeOutcome) (finalCall : AnswerCallOutcome) : AnswerAttempt :=
  { answer :=
      match finalCall with
      | AnswerCallOutcome.ok [] => none
      | AnswerCallOutcome.ok (c :: _) => c
      | AnswerCallOutcome.raise => none,
    sentUserMessage := user_message context question imgs oracle,
    remoteCalls := imgs.length + 1 }


/-- The stored content for one filename (app.py 264-267): the extracted
text (the empty string when extraction yielded None) and the extracted
images. -/
structure Content where
  text : String
  images : List ExtractedImage
deriving DecidableEq

/-- The in-process document store app.pdf_contents (app.py 263): a mapping
from sanitized filename to stored content. -/
abbrev Store := String → Option Content

/-- Store update (app.py 264): assignment under one key. -/
def updateStore (store : Store) (k : String) (v : Content) : Store :=
  fun q => if q = k then some v else store q

/-- The body of an ask request (app.py 286-291): the question and filename
fields, each possibly missing. -/
structure AskData where
  question : Option String
  filename : Option String

/-- The caller-visible outcome of the ask route (app.py 280-323): the 500
configuration error, the 400 missing-parameters error, the 404 not-found
error, the 200 answer payload, or the 500 could-not-get-an-answer error. -/
inductive AskOutcome where
  | configError
  | missingParams
  | notFound
  | answered (answer : String) (textLen : Nat) (imageCount : Nat)
  | noAnswer
deriving DecidableEq

/-- The full effect of one ask request: the store after the request, the
response, and how many remote model requests were issued. -/
structure AskResult where
  store : Store
  outcome : AskOutcome
  remoteCalls : Nat

/-- Python truthiness of os.getenv: false for an unset variable and for an
empty string (app.py 283, if not os.getenv). -/
def envTruthy : Option String → Bool
  | none => false
  | some s => !(s == "")

/-- ask_question (app.py 280-323): credential check first, then request
body validation, then the store lookup, then the model call; the store is
returned unchanged on every path. env is the GITHUB_API_KEY variable,
oracle and finalCall carry the remote call outcomes of this run. -/
def ask_question (env : Option String) (store : Store) (data : Option AskData)
    (oracle : Nat → DescribeOutcome) (finalCall : AnswerCallOutcome) : AskResult :=
  if envTruthy env = false then ⟨store, AskOutcome.configError, 0⟩
  else
    match data with
    | none => ⟨store, AskOutcome.missingParams, 0⟩
    | some d =>
      match d.question, d.filename with
      | some question, some filename =>
        (match store filename with
         | none => ⟨store, AskOutcome.notFound, 0⟩
         | some content =>
           let att := get_answer_from_model question content.text content.images oracle finalCall
           match att.answer with
           | some a =>
             if a = "" then ⟨store, AskOutcome.noAnswer, att.remoteCalls⟩
             else ⟨store, AskOutcome.answered a content.text.length content.images.length,
               att.remoteCalls⟩
           | none => ⟨store, AskOutcome.noAnswer, att.remoteCalls⟩)
      | _, _ => ⟨store, AskOutcome.missingParams, 0⟩

/-- The outcome of the upload route (app.py 233-278). -/
inductive UploadOutcome where
  | noFilePart
  | noSelectedFile
  | notPdf
  | serverError
  | noContent
  | uploaded (filename : String) (textLen : Nat) (imageCount : Nat)
deriving DecidableEq

/-- filename.lower().endswith of the pdf suffix (app.py 242), computed on
the character list. -/
def pdfCheck (name : String) : Bool :=
  List.isSuffixOf ".pdf".data (name.data.map Char.toLower)

/-- Python truthiness of the extracted text at app.py 259: None and the
empty string are falsy. -/
def textFalsy : Option String → Bool
  | none => true
  | some t => t == ""

/-- upload_file (app.py 233-278): the validation chain, extraction of text
and images from the saved file, the no-content rejection, and the store
assignment under the sanitized filename. hasFile models the file part
check, sanitize models werkzeug secure_filename, saveFails models an
exception from file.save caught at app.py 276-278. -/
def upload_file (store : Store) (hasFile : Bool) (origName : String)
    (sanitize : String → String) (saveFails : Bool)
    (pages : List PageData) (pimgs : List (List RawImage)) : Store × UploadOutcome :=
  if !hasFile then (store, UploadOutcome.noFilePart)
  else if origName = "" then (store, UploadOutcome.noSelectedFile)
  else if !pdfCheck origName then (store, UploadOutcome.notPdf)
  else if saveFails then (store, UploadOutcome.serverError)
  else if textFalsy (extract_pdf_text pages) && (extract_images_from_pdf pimgs).isEmpty then
    (store, UploadOutcome.noContent)
  else
    (updateStore store (sanitize origName)
        ⟨(extract_pdf_text pages).getD "", extract_images_from_pdf pimgs⟩,
      UploadOutcome.uploaded (sanitize origName) ((extract_pdf_text pages).getD "").length
        (extract_images_from_pdf pimgs).length)

/-! ## Helper lemmas -/

theorem collectPageTexts_eq_filterMap (pages : List PageData) :
    collectPageTexts pages = pages.filterMap pageContribution := by
  induction pages with
  | nil => rfl
  | cons p rest ih =>
    cases hc : pageContribution p <;>
      simp [collectPageTexts, hc, ih, List.filterMap_cons]

theorem goodPage_contribution_eq (p : PageData) (h : goodPage p) :
    pageContribution p = specPageContribution p := by
  cases p with
  | err => rfl
  | ok t ws tbls =>
    obtain ⟨h1, h2⟩ := h
    have hwj : String.intercalate " " ([] : List String) = "" := rfl
    have hnj : String.intercalate "\n" ([] : List String) = "" := rfl
    by_cases ht : t = ""
    · by_cases hw : ws = []
      · subst hw
        by_cases htb : tableTexts tbls = []
        · by_cases htbl : tbls = [] <;>
            simp [pageContribution, specPageContribution, tableTexts, ht, htb, htbl, hwj, hnj]
        · rcases h2 with h2 | h2
          · exact absurd h2 htb
          · have htbl : tbls ≠ [] := fun hx => htb (by simp [hx, tableTexts])
            simp [pageContribution, specPageContribution, ht, htb, htbl, hwj, h2]
      · rcases h1 with h1 | h1
        · exact absurd h1 hw
        · simp [pageContribution, specPageContribution, ht, hw, h1]
    · simp [pageContribution, specPageContribution, ht]

theorem goodPages_filterMap_eq (pages : List PageData) (h : ∀ p ∈ pages, goodPage p) :
    pages.filterMap pageContribution = pages.filterMap specPageContribution := by
  induction pages with
  | nil => rfl
  | cons p rest ih =>
    rw [List.filterMap_cons, List.filterMap_cons,
      goodPage_contribution_eq p (h p (by simp)),
      ih (fun q hq => h q (by simp [hq]))]

theorem buildContextLoop_eq (oracle : Nat → DescribeOutcome) (imgs : List ExtractedImage) :
    ∀ (i : Nat) (acc : String), buildContextLoop oracle i imgs acc = acc ++ blocksFrom oracle i imgs := by
  induction imgs with
  | nil => intro i acc; simp [buildContextLoop, blocksFrom, String.append_empty]
  | cons img rest ih =>
    intro i acc
    simp only [buildContextLoop, blocksFrom, ih, imageBlock, String.append_assoc]

theorem blocksFrom_append (oracle : Nat → DescribeOutcome) (xs ys : List ExtractedImage) :
    ∀ i : Nat, blocksFrom oracle i (xs ++ ys) = blocksFrom oracle i xs ++ blocksFrom oracle (i + xs.length) ys := by
  induction xs with
  | nil => intro i; simp [blocksFrom]
  | cons x rest ih =>
    intro i
    have h1 : blocksFrom oracle i ((x :: rest) ++ ys) =
        imageBlock i x.page (oracle i) ++ blocksFrom oracle (i + 1) (rest ++ ys) := rfl
    have h2 : blocksFrom oracle i (x :: rest) =
        imageBlock i x.page (oracle i) ++ blocksFrom oracle (i + 1) rest := rfl
    rw [h1, h2, ih (i + 1), String.append_assoc]
    have h3 : i + 1 + rest.length = i + (x :: rest).length := by
      rw [List.length_cons]; omega
    rw [h3]

theorem descText_of_failure (o : DescribeOutcome) (h : descOk o = false) : descText o = "" := by
  cases o with
  | ok d => simp [descOk] at h
  | noChoices => rfl
  | raise => rfl

theorem extract_pdf_text_not_some_empty (pages : List PageData) :
    extract_pdf_text pages ≠ some "" := by
  have he : extract_pdf_text pages =
      if pyStrip (String.intercalate "\n" (collectPageTexts pages)) = "" then none
      else some (String.intercalate "\n" (collectPageTexts pages)) := rfl
  rw [he]
  by_cases h : pyStrip (String.intercalate "\n" (collectPageTexts pages)) = ""
  · rw [if_pos h]; simp
  · rw [if_neg h]
    intro hx
    injection hx with hx
    exact h (by rw [hx]; decide)

theorem textFalsy_extract_iff (pages : List PageData) :
    textFalsy (extract_pdf_text pages) = true ↔ extract_pdf_text pages = none := by
  cases hx : extract_pdf_text pages with
  | none => simp [textFalsy]
  | some t =>
    simp only [textFalsy, beq_iff_eq]
    constructor
    · intro h
      subst h
      exact absurd hx (extract_pdf_text_not_some_empty pages)
    · intro h
      simp at h

/-! ## Claim theorems -/

/-- Concrete counterexample input for C1: page 1 has direct text, page 2
has no text, no words, and one table whose single row has only a null
cell. -/
def exC1 : List PageData :=
  [PageData.ok "Hello" [] [], PageData.ok "" [] [[[(none : Option String)]]]]

/-- C1 counterexample: the claim says a page takes the first strategy with
non-empty OUTPUT, so page 2 of exC1 (whose table strategy outputs the
empty string) should contribute nothing and the text should be
"Hello"; the code keys the table fallback on the non-emptiness of the
table_text LIST, takes the empty output, and produces "Hello\n". -/
theorem c1_counterexample :
    extract_pdf_text exC1 = some "Hello\n" ∧ specExtract exC1 = some "Hello" ∧
      extract_pdf_text exC1 ≠ specExtract exC1 := by decide

/-- C1 (amended): for every document in which each non-empty word list
joins to a non-empty string and each non-empty table_text joins to a
non-empty string, extraction applies the ordered fallback chain and takes
the first strategy with non-empty output, and the per-page contributions,
in page order, joined by newlines, give the stored text. -/
theorem c1_extraction_fallback (pages : List PageData) (h : ∀ p ∈ pages, goodPage p) :
    extract_pdf_text pages = specExtract pages := by
  unfold extract_pdf_text specExtract
  rw [collectPageTexts_eq_filterMap, goodPages_filterMap_eq pages h]

/-- The 2-page example of C1: direct text on page 1, only the table
with row A, B on page 2. -/
def exC1ok : List PageData :=
  [PageData.ok "Hello" [] [], PageData.ok "" [] [[[some "A", some "B"]]]]

theorem c1_witness :
    (∀ p ∈ exC1ok, goodPage p) ∧ extract_pdf_text exC1ok = specExtract exC1ok ∧
      extract_pdf_text exC1ok = some "Hello\nA B" :=
  ⟨by decide, c1_extraction_fallback exC1ok (by decide), by decide⟩

/-- C4: whenever the per-page contributions, joined by newlines and
stripped of whitespace, are empty, extract_pdf_text signals the distinct
no-text outcome (None) instead of returning an empty string as success. -/
theorem c4_no_text_outcome (pages : List PageData)
    (h : pyStrip (String.intercalate "\n" (collectPageTexts pages)) = "") :
    extract_pdf_text pages = none := by
  unfold extract_pdf_text
  simp [h]

theorem c4_witness :
    pyStrip (String.intercalate "\n" (collectPageTexts [PageData.err, PageData.ok "" [] []])) = "" ∧
      extract_pdf_text [PageData.err, PageData.ok "" [] []] = none :=
  ⟨by decide, c4_no_text_outcome [PageData.err, PageData.ok "" [] []] (by decide)⟩

theorem processPageImages_skip_err (pn : Nat) :
    ∀ (xs : List RawImage) (i : Nat) (ys : List RawImage),
      processPageImages pn i (xs ++ RawImage.err :: ys) =
        processPageImages pn i xs ++ processPageImages pn (i + xs.length + 1) ys := by
  intro xs
  induction xs with
  | nil => intro i ys; simp [processPageImages]
  | cons r rest ih =>
    intro i ys
    cases r with
    | ok b =>
      simp only [List.cons_append, List.append_eq, processPageImages, ih (i + 1), List.length_cons]
      have h3 : i + 1 + rest.length + 1 = i + (rest.length + 1) + 1 := by omega
      rw [h3]
    | err =>
      simp only [List.cons_append, List.append_eq, processPageImages, ih (i + 1), List.length_cons]
      have h3 : i + 1 + rest.length + 1 = i + (rest.length + 1) + 1 := by omega
      rw [h3]

/-- C8: failures are absorbed locally. A page whose extraction raised
contributes nothing while every other page still contributes; a corrupt
image is skipped while the remaining images of the page are still
extracted (their enumerate indices unchanged); and a valid upload request
is judged a content failure exactly when text extraction yields no text
and image extraction yields no image. -/
theorem c8_local_failure_absorption :
    (∀ xs ys : List PageData,
      extract_pdf_text (xs ++ PageData.err :: ys) = extract_pdf_text (xs ++ ys)) ∧
    (∀ (pn i : Nat) (xs ys : List RawImage),
      processPageImages pn i (xs ++ RawImage.err :: ys) =
        processPageImages pn i xs ++ processPageImages pn (i + xs.length + 1) ys) ∧
    (∀ (store : Store) (nm : String) (sanitize : String → String)
        (pages : List PageData) (pimgs : List (List RawImage)),
      nm ≠ "" → pdfCheck nm = true →
      ((upload_file store true nm sanitize false pages pimgs).2 = UploadOutcome.noContent ↔
        (extract_pdf_text pages = none ∧ extract_images_from_pdf pimgs = []))) := by
  refine ⟨?_, ?_, ?_⟩
  · intro xs ys
    have h : collectPageTexts (xs ++ PageData.err :: ys) = collectPageTexts (xs ++ ys) := by
      rw [collectPageTexts_eq_filterMap, collectPageTexts_eq_filterMap,
        List.filterMap_append, List.filterMap_append,
        List.filterMap_cons_none (show pageContribution PageData.err = none from rfl)]
    unfold extract_pdf_text
    rw [h]
  · intro pn i xs ys
    exact processPageImages_skip_err pn xs i ys
  · intro store nm sanitize pages pimgs h1 h2
    have key : (upload_file store true nm sanitize false pages pimgs).2 = UploadOutcome.noContent ↔
        (textFalsy (extract_pdf_text pages) && (extract_images_from_pdf pimgs).isEmpty) = true := by
      unfold upload_file
      simp only [h1, h2, Bool.not_true, Bool.false_eq_true, if_false, ite_false, if_neg h1]
      by_cases hc : (textFalsy (extract_pdf_text pages) && (extract_images_from_pdf pimgs).isEmpty) = true
      · simp [hc]
      · simp [hc]
    rw [key, Bool.and_eq_true, textFalsy_extract_iff, List.isEmpty_iff]

/-- An always-empty store. -/
def emptyStore : Store := fun _ => none

theorem c8_witness :
    extract_pdf_text ([PageData.ok "Hi" [] []] ++ PageData.err :: [PageData.ok "Yo" [] []]) =
      extract_pdf_text ([PageData.ok "Hi" [] []] ++ [PageData.ok "Yo" [] []]) ∧
    processPageImages 0 0 ([RawImage.ok "b"] ++ RawImage.err :: [RawImage.ok "c"]) =
      processPageImages 0 0 [RawImage.ok "b"] ++
        processPageImages 0 (0 + [RawImage.ok "b"].length + 1) [RawImage.ok "c"] ∧
    ((upload_file emptyStore true "a.pdf" id false [PageData.err] [[RawImage.err]]).2 =
        UploadOutcome.noContent ↔
      (extract_pdf_text [PageData.err] = none ∧ extract_images_from_pdf [[RawImage.err]] = [])) :=
  ⟨c8_local_failure_absorption.1 [PageData.ok "Hi" [] []] [PageData.ok "Yo" [] []],
   c8_local_failure_absorption.2.1 0 0 [RawImage.ok "b"] [RawImage.ok "c"],
   c8_local_failure_absorption.2.2 emptyStore "a.pdf" id [PageData.err] [[RawImage.err]]
     (by decide) (by decide)⟩

/-- C9: the store is mutated only by a completed upload. Every ask request
returns the store unchanged; a completed upload binds the sanitized
filename to the freshly extracted content and leaves every other key
unchanged; and no upload path ever removes an existing entry. -/
theorem c9_store_mutation :
    (∀ (env : Option String) (store : Store) (data : Option AskData)
        (oracle : Nat → DescribeOutcome) (finalCall : AnswerCallOutcome),
      (ask_question env store data oracle finalCall).store = store) ∧
    (∀ (store : Store) (hasFile : Bool) (nm : String) (sanitize : String → String)
        (saveFails : Bool) (pages : List PageData) (pimgs : List (List RawImage))
        (fn : String) (tl ic : Nat),
      (upload_file store hasFile nm sanitize saveFails pages pimgs).2 =
          UploadOutcome.uploaded fn tl ic →
        (fn = sanitize nm ∧
         (upload_file store hasFile nm sanitize saveFails pages pimgs).1 fn =
           some ⟨(extract_pdf_text pages).getD "", extract_images_from_pdf pimgs⟩ ∧
         ∀ k, k ≠ fn →
           (upload_file store hasFile nm sanitize saveFails pages pimgs).1 k = store k)) ∧
    (∀ (store : Store) (hasFile : Bool) (nm : String) (sanitize : String → String)
        (saveFails : Bool) (pages : List PageData) (pimgs : List (List RawImage)) (k : String),
      store k ≠ none →
        (upload_file store hasFile nm sanitize saveFails pages pimgs).1 k ≠ none) := by
  refine ⟨?_, ?_, ?_⟩
  · intro env store data oracle finalCall
    unfold ask_question
    by_cases he : envTruthy env = false
    · rw [if_pos he]
    · rw [if_neg he]
      rcases data with _ | ⟨q, f⟩
      · rfl
      · rcases q with _ | q
        · rfl
        · rcases f with _ | f
          · rfl
          · cases hsf : store f with
            | none => simp [hsf]
            | some content =>
              simp only [hsf]
              cases finalCall with
              | raise => rfl
              | ok choices =>
                cases choices with
                | nil => rfl
                | cons c rest =>
                  cases c with
                  | none => rfl
                  | some a => by_cases ha : a = "" <;> simp [get_answer_from_model, ha]
  · intro store hasFile nm sanitize saveFails pages pimgs fn tl ic h
    unfold upload_file at h ⊢
    by_cases h1 : (!hasFile) = true
    · rw [if_pos h1] at h; exact absurd h (by simp)
    · rw [if_neg h1] at h ⊢
      by_cases h2 : nm = ""
      · rw [if_pos h2] at h; exact absurd h (by simp)
      · rw [if_neg h2] at h ⊢
        by_cases h3 : (!pdfCheck nm) = true
        · rw [if_pos h3] at h; exact absurd h (by simp)
        · rw [if_neg h3] at h ⊢
          by_cases h4 : saveFails = true
          · rw [if_pos h4] at h; exact absurd h (by simp)
          · rw [if_neg h4] at h ⊢
            by_cases h5 : (textFalsy (extract_pdf_text pages) &&
                (extract_images_from_pdf pimgs).isEmpty) = true
            · rw [if_pos h5] at h; exact absurd h (by simp)
            · rw [if_neg h5] at h ⊢
              simp only [UploadOutcome.uploaded.injEq] at h
              obtain ⟨hfn, htl, hic⟩ := h
              subst hfn
              refine ⟨rfl, ?_, ?_⟩
              · simp [updateStore]
              · intro k hk
                simp [updateStore, hk]
  · intro store hasFile nm sanitize saveFails pages pimgs k hk
    unfold upload_file
    by_cases h1 : (!hasFile) = true
    · rw [if_pos h1]; exact hk
    · rw [if_neg h1]
      by_cases h2 : nm = ""
      · rw [if_pos h2]; exact hk
      · rw [if_neg h2]
        by_cases h3 : (!pdfCheck nm) = true
        · rw [if_pos h3]; exact hk
        · rw [if_neg h3]
          by_cases h4 : saveFails = true
          · rw [if_pos h4]; exact hk
          · rw [if_neg h4]
            by_cases h5 : (textFalsy (extract_pdf_text pages) &&
                (extract_images_from_pdf pimgs).isEmpty) = true
            · rw [if_pos h5]; exact hk
            · rw [if_neg h5]
              by_cases hkf : k = sanitize nm
              · simp [updateStore, hkf]
              · simp only [updateStore]
                rw [if_neg hkf]
                exact hk

/-- A one-entry store holding previously uploaded content under a.pdf. -/
def store1 : Store :=
  fun k => if k = "a.pdf" then some ⟨"old", []⟩ else none

/-- A describe oracle that always raises. -/
def oracleFailAll : Nat → DescribeOutcome := fun _ => DescribeOutcome.raise

/-- A document with one page of direct text Hi. -/
def pagesHi : List PageData := [PageData.ok "Hi" [] []]

theorem c9_witness :
    (ask_question (some "k") store1 (some ⟨some "Q", some "a.pdf"⟩) oracleFailAll
        (AnswerCallOutcome.ok [some "A"])).store = store1 ∧
    (upload_file store1 true "a.pdf" id false pagesHi []).1 "a.pdf" =
      some ⟨(extract_pdf_text pagesHi).getD "", extract_images_from_pdf []⟩ ∧
    (extract_pdf_text pagesHi).getD "" = "Hi" ∧
    (upload_file store1 true "a.pdf" id false pagesHi []).1 "b.pdf" = store1 "b.pdf" ∧
    (upload_file store1 true "a.pdf" id false pagesHi []).1 "a.pdf" ≠ none :=
  ⟨c9_store_mutation.1 (some "k") store1 (some ⟨some "Q", some "a.pdf"⟩) oracleFailAll
      (AnswerCallOutcome.ok [some "A"]),
   (c9_store_mutation.2.1 store1 true "a.pdf" id false pagesHi [] "a.pdf" 2 0 (by decide)).2.1,
   by decide,
   (c9_store_mutation.2.1 store1 true "a.pdf" id false pagesHi [] "a.pdf" 2 0 (by decide)).2.2
     "b.pdf" (by decide),
   c9_store_mutation.2.2 store1 true "a.pdf" id false pagesHi [] "a.pdf" (by decide)⟩

/-- C10: with the API credential absent from the environment, every ask
request, whatever its body, filename, store state, or remote outcomes,
returns the configuration-error outcome: the credential check runs before
the missing-parameters and not-found checks. -/
theorem c10_config_error_first (store : Store) (data : Option AskData)
    (oracle : Nat → DescribeOutcome) (finalCall : AnswerCallOutcome) :
    ask_question none store data oracle finalCall = ⟨store, AskOutcome.configError, 0⟩ := rfl

/-- C7: an ask request carrying a question and a filename that is not a key
of the store, made with the credential configured, returns the not-found
outcome with zero remote model requests issued. -/
theorem c7_unknown_file_not_found (env : Option String) (store : Store) (q f : String)
    (oracle : Nat → DescribeOutcome) (finalCall : AnswerCallOutcome)
    (henv : envTruthy env = true) (hf : store f = none) :
    ask_question env store (some ⟨some q, some f⟩) oracle finalCall =
      ⟨store, AskOutcome.notFound, 0⟩ := by
  unfold ask_question
  rw [if_neg (by simp [henv])]
  simp [hf]

theorem c7_witness :
    envTruthy (some "k") = true ∧ emptyStore "missing.pdf" = none ∧
      ask_question (some "k") emptyStore (some ⟨some "Q", some "missing.pdf"⟩) oracleFailAll
          AnswerCallOutcome.raise =
        ⟨emptyStore, AskOutcome.notFound, 0⟩ :=
  ⟨by decide, rfl,
   c7_unknown_file_not_found (some "k") emptyStore "Q" "missing.pdf" oracleFailAll
     AnswerCallOutcome.raise (by decide) rfl⟩

/-- The store and request body used in the C2 counterexample. -/
def store2 : Store :=
  fun k => if k = "doc.pdf" then some ⟨"Hello", []⟩ else none

/-- C2 counterexample: two runs over the same configured state, one in
which the final remote call succeeds with an empty choices list and one in
which it raises, produce the identical caller-visible outcome (the same
500 could-not-get-an-answer response), so the two failure kinds are NOT
surfaced differently. -/
theorem c2_counterexample :
    (ask_question (some "key") store2 (some ⟨some "Q", some "doc.pdf"⟩) oracleFailAll
        (AnswerCallOutcome.ok [])).outcome = AskOutcome.noAnswer ∧
    (ask_question (some "key") store2 (some ⟨some "Q", some "doc.pdf"⟩) oracleFailAll
        AnswerCallOutcome.raise).outcome = AskOutcome.noAnswer ∧
    (ask_question (some "key") store2 (some ⟨some "Q", some "doc.pdf"⟩) oracleFailAll
        (AnswerCallOutcome.ok [])).outcome =
      (ask_question (some "key") store2 (some ⟨some "Q", some "doc.pdf"⟩) oracleFailAll
        AnswerCallOutcome.raise).outcome := by decide

/-- C2 (amended): the code does not distinguish the two failure kinds:
get_answer_from_model returns None both when the final call succeeds with
no choices and when it raises, and the ask route maps both runs to the
same caller-visible outcome on every state. -/
theorem c2_no_distinction (env : Option String) (store : Store) (data : Option AskData)
    (oracle : Nat → DescribeOutcome) (q c : String) (imgs : List ExtractedImage) :
    (get_answer_from_model q c imgs oracle (AnswerCallOutcome.ok [])).answer = none ∧
    (get_answer_from_model q c imgs oracle AnswerCallOutcome.raise).answer = none ∧
    (ask_question env store data oracle (AnswerCallOutcome.ok [])).outcome =
      (ask_question env store data oracle AnswerCallOutcome.raise).outcome := by
  refine ⟨rfl, rfl, ?_⟩
  unfold ask_question
  by_cases he : envTruthy env = false
  · simp [he]
  · simp only [if_neg he]
    rcases data with _ | ⟨qd, fd⟩
    · rfl
    · rcases qd with _ | qd
      · rfl
      · rcases fd with _ | fd
        · rfl
        · cases hsf : store fd <;> simp [hsf, get_answer_from_model]

/-- C6 (amended): with no images the context is the text verbatim; with
images the context is the base text, the header, then one labeled block
per image in order, where the block carries the model description exactly
when the describe call for that image succeeded with a choice. -/
theorem c6_context_assembly (c : String) (imgs : List ExtractedImage)
    (oracle : Nat → DescribeOutcome) :
    full_context c [] oracle = c ∧
    full_context c imgs oracle = amendedContextC6 c imgs oracle := by
  refine ⟨rfl, ?_⟩
  unfold full_context amendedContextC6
  by_cases hi : imgs.isEmpty
  · rw [if_pos hi, if_pos hi]
  · rw [if_neg hi, if_neg hi, buildContextLoop_eq]

/-- Concrete images used by the context counterexamples and witnesses. -/
def imgA : ExtractedImage := ⟨"page_1_image_1.png", 1, "b64a"⟩

def imgB : ExtractedImage := ⟨"page_2_image_1.png", 2, "b64b"⟩

def imgC : ExtractedImage := ⟨"page_3_image_1.png", 3, "b64c"⟩

/-- A describe oracle that succeeds on image 1 and raises on image 2. -/
def oracleC6 : Nat → DescribeOutcome :=
  fun i => if i = 1 then DescribeOutcome.ok "A photo" else DescribeOutcome.raise

/-- C6 counterexample: with one described and one failing image, the claim
says the context holds one block per SUCCESSFULLY described image, but the
code also emits the bare label of the failed image. -/
theorem c6_counterexample :
    full_context "Base" [imgA, imgB] oracleC6 =
      "Base\n\nThe document also contains the following images:\n\nImage 1 (on page 1):\nA photo\n\nImage 2 (on page 2):\n" ∧
    specContextC6 "Base" [imgA, imgB] oracleC6 =
      "Base\n\nThe document also contains the following images:\n\nImage 1 (on page 1):\nA photo\n" ∧
    full_context "Base" [imgA, imgB] oracleC6 ≠ specContextC6 "Base" [imgA, imgB] oracleC6 := by
  decide

/-- C3 counterexample: when the one describe call fails, the claim says no
trace of the image appears in the context, but the code leaves the
index-and-page label of the failed image in the context. -/
theorem c3_counterexample :
    full_context "T" [imgA] oracleFailAll =
      "T\n\nThe document also contains the following images:\n\nImage 1 (on page 1):\n" ∧
    specContextC6 "T" [imgA] oracleFailAll =
      "T\n\nThe document also contains the following images:\n" ∧
    full_context "T" [imgA] oracleFailAll ≠ specContextC6 "T" [imgA] oracleFailAll := by
  decide

/-- C3 (amended): when the describe call for one image fails, that image
contributes exactly its bare index-and-page label (its description is
skipped), while every other image before and after it still contributes
its block and the build always completes. -/
theorem c3_failed_image_label_only (c : String) (oracle : Nat → DescribeOutcome)
    (xs ys : List ExtractedImage) (img : ExtractedImage)
    (h : descOk (oracle (xs.length + 1)) = false) :
    full_context c (xs ++ img :: ys) oracle =
      ((c ++ docHeader) ++ blocksFrom oracle 1 xs) ++
        (("\nImage " ++ toString (xs.length + 1) ++ " (on page " ++ toString img.page ++ "):\n") ++
          blocksFrom oracle (xs.length + 2) ys) := by
  have hne : (xs ++ img :: ys).isEmpty = false := by cases xs <;> rfl
  unfold full_context
  rw [if_neg (by simp [hne]), buildContextLoop_eq, blocksFrom_append]
  have hcomm : (1 : Nat) + xs.length = xs.length + 1 := Nat.add_comm 1 xs.length
  have hb : blocksFrom oracle (1 + xs.length) (img :: ys) =
      imageBlock (1 + xs.length) img.page (oracle (1 + xs.length)) ++
        blocksFrom oracle (1 + xs.length + 1) ys := rfl
  rw [hb, hcomm]
  have harith : xs.length + 1 + 1 = xs.length + 2 := rfl
  rw [harith]
  unfold imageBlock
  rw [descText_of_failure _ h, String.append_empty]
  simp only [String.append_assoc]

/-- A describe oracle that raises exactly on image 2. -/
def oracleC3 : Nat → DescribeOutcome :=
  fun i => if i = 2 then DescribeOutcome.raise else DescribeOutcome.ok ("D" ++ toString i)

theorem c3_witness :
    descOk (oracleC3 ([imgA].length + 1)) = false ∧
    full_context "T" ([imgA] ++ imgB :: [imgC]) oracleC3 =
      (("T" ++ docHeader) ++ blocksFrom oracleC3 1 [imgA]) ++
        (("\nImage " ++ toString ([imgA].length + 1) ++ " (on page " ++ toString imgB.page ++ "):\n") ++
          blocksFrom oracleC3 ([imgA].length + 2) [imgC]) ∧
    full_context "T" ([imgA] ++ imgB :: [imgC]) oracleC3 =
      "T\n\nThe document also contains the following images:\n\nImage 1 (on page 1):\nD1\n\nImage 2 (on page 2):\n\nImage 3 (on page 3):\nD3\n" :=
  ⟨by decide, c3_failed_image_label_only "T" oracleC3 [imgA] [imgC] imgB (by decide), by decide⟩

/-- C5: for every context string, question string, image list and describe
outcomes, the user message sent for answering contains the whole context
and the whole question verbatim, by plain concatenation with no
truncation or escaping. -/
theorem c5_verbatim_message (c q : String) (imgs : List ExtractedImage)
    (oracle : Nat → DescribeOutcome) :
    (∃ s t, user_message c q imgs oracle = (s ++ c) ++ t) ∧
    (∃ s t, user_message c q imgs oracle = (s ++ q) ++ t) := by
  have hsplit : ∃ r, full_context c imgs oracle = c ++ r := by
    unfold full_context
    by_cases hi : imgs.isEmpty
    · exact ⟨"", by rw [if_pos hi, String.append_empty]⟩
    · exact ⟨docHeader ++ blocksFrom oracle 1 imgs,
        by rw [if_neg hi, buildContextLoop_eq, String.append_assoc]⟩
  obtain ⟨r, hr⟩ := hsplit
  constructor
  · refine ⟨"Context: ", r ++ ("\n\nQuestion: " ++
      (q ++ "\n\nAnswer the question based only on the provided context.")), ?_⟩
    unfold user_message
    rw [hr]
    simp only [String.append_assoc]
  · refine ⟨"Context: " ++ full_context c imgs oracle ++ "\n\nQuestion: ",
      "\n\nAnswer the question based only on the provided context.", ?_⟩
    unfold user_message
    simp only [String.append_assoc]
